import Mathlib

/-!
# Verification of the ASABIG talent-platform logic (src/main.py)

Shallow embedding of the data-handling logic of `src/main.py`:

* the gender filter of the "Benchmarks & Data" page,
* `completion_score` (profile / metrics / uploads sub-scores and the clamp),
* `ensure_demo_profiles_from_csv` (CSV import: column resolution and the
  per-row gender normalisation `str(raw).strip()[:1].upper()`),
* `upsert_athlete_profile` (insert-or-update on the `athlete_profiles` table).

Python strings are modelled by Lean `String` (a list of characters); the
Python string operations `strip`, `[:1]`, `upper` and `lower` are embedded
as explicit operations on `String.data` so that they can be reasoned about.
Python `str.strip()` removes leading and trailing whitespace; we use
`Char.isWhitespace` for the whitespace test.  `str.upper` is Unicode full
uppercasing and is one-to-many on some characters (`"ß".upper() == "SS"`);
it is embedded per character as the table `upperExpansions` of all 102
one-to-many expansions (generated from CPython 3.11 / Unicode 14) with
`Char.toUpper` for the remaining one-to-one case (non-ASCII one-to-one
mappings such as é → É are approximated by the identity; they are
length-preserving and uppercase-idempotent, so no theorem below depends on
them).  `str.lower`, used only for case-insensitive column-name probing,
is embedded as ASCII `Char.toLower`.  File-system existence checks
(`Path(...).exists()`) are modelled by an abstract predicate
`fs : String → Bool`.
-/

/-- Python `str.strip()` at the character-list level: drop leading and
trailing whitespace. -/
def pyStripL (l : List Char) : List Char :=
  ((l.dropWhile Char.isWhitespace).reverse.dropWhile Char.isWhitespace).reverse

/-- Python `str.strip()`. -/
def pyStrip (s : String) : String := ⟨pyStripL s.data⟩

/-- Python slicing `s[:1]`: the first character of the string, if any. -/
def pyTake1 (s : String) : String := ⟨s.data.take 1⟩

/-- The one-to-many mappings of Python `str.upper()` (Unicode full case
mapping): all 102 code points whose uppercase is more than one character,
with their expansions, exactly as CPython computes them (Unicode
`SpecialCasing.txt` unconditional uppercase entries). -/
def upperExpansions : List (Char × List Char) :=
  [('\u00DF', ['S', 'S']), ('\u0149', ['\u02BC', 'N']), ('\u01F0', ['J', '\u030C']),
   ('\u0390', ['\u0399', '\u0308', '\u0301']), ('\u03B0', ['\u03A5', '\u0308', '\u0301']), ('\u0587', ['\u0535', '\u0552']),
   ('\u1E96', ['H', '\u0331']), ('\u1E97', ['T', '\u0308']), ('\u1E98', ['W', '\u030A']),
   ('\u1E99', ['Y', '\u030A']), ('\u1E9A', ['A', '\u02BE']), ('\u1F50', ['\u03A5', '\u0313']),
   ('\u1F52', ['\u03A5', '\u0313', '\u0300']), ('\u1F54', ['\u03A5', '\u0313', '\u0301']), ('\u1F56', ['\u03A5', '\u0313', '\u0342']),
   ('\u1F80', ['\u1F08', '\u0399']), ('\u1F81', ['\u1F09', '\u0399']), ('\u1F82', ['\u1F0A', '\u0399']),
   ('\u1F83', ['\u1F0B', '\u0399']), ('\u1F84', ['\u1F0C', '\u0399']), ('\u1F85', ['\u1F0D', '\u0399']),
   ('\u1F86', ['\u1F0E', '\u0399']), ('\u1F87', ['\u1F0F', '\u0399']), ('\u1F88', ['\u1F08', '\u0399']),
   ('\u1F89', ['\u1F09', '\u0399']), ('\u1F8A', ['\u1F0A', '\u0399']), ('\u1F8B', ['\u1F0B', '\u0399']),
   ('\u1F8C', ['\u1F0C', '\u0399']), ('\u1F8D', ['\u1F0D', '\u0399']), ('\u1F8E', ['\u1F0E', '\u0399']),
   ('\u1F8F', ['\u1F0F', '\u0399']), ('\u1F90', ['\u1F28', '\u0399']), ('\u1F91', ['\u1F29', '\u0399']),
   ('\u1F92', ['\u1F2A', '\u0399']), ('\u1F93', ['\u1F2B', '\u0399']), ('\u1F94', ['\u1F2C', '\u0399']),
   ('\u1F95', ['\u1F2D', '\u0399']), ('\u1F96', ['\u1F2E', '\u0399']), ('\u1F97', ['\u1F2F', '\u0399']),
   ('\u1F98', ['\u1F28', '\u0399']), ('\u1F99', ['\u1F29', '\u0399']), ('\u1F9A', ['\u1F2A', '\u0399']),
   ('\u1F9B', ['\u1F2B', '\u0399']), ('\u1F9C', ['\u1F2C', '\u0399']), ('\u1F9D', ['\u1F2D', '\u0399']),
   ('\u1F9E', ['\u1F2E', '\u0399']), ('\u1F9F', ['\u1F2F', '\u0399']), ('\u1FA0', ['\u1F68', '\u0399']),
   ('\u1FA1', ['\u1F69', '\u0399']), ('\u1FA2', ['\u1F6A', '\u0399']), ('\u1FA3', ['\u1F6B', '\u0399']),
   ('\u1FA4', ['\u1F6C', '\u0399']), ('\u1FA5', ['\u1F6D', '\u0399']), ('\u1FA6', ['\u1F6E', '\u0399']),
   ('\u1FA7', ['\u1F6F', '\u0399']), ('\u1FA8', ['\u1F68', '\u0399']), ('\u1FA9', ['\u1F69', '\u0399']),
   ('\u1FAA', ['\u1F6A', '\u0399']), ('\u1FAB', ['\u1F6B', '\u0399']), ('\u1FAC', ['\u1F6C', '\u0399']),
   ('\u1FAD', ['\u1F6D', '\u0399']), ('\u1FAE', ['\u1F6E', '\u0399']), ('\u1FAF', ['\u1F6F', '\u0399']),
   ('\u1FB2', ['\u1FBA', '\u0399']), ('\u1FB3', ['\u0391', '\u0399']), ('\u1FB4', ['\u0386', '\u0399']),
   ('\u1FB6', ['\u0391', '\u0342']), ('\u1FB7', ['\u0391', '\u0342', '\u0399']), ('\u1FBC', ['\u0391', '\u0399']),
   ('\u1FC2', ['\u1FCA', '\u0399']), ('\u1FC3', ['\u0397', '\u0399']), ('\u1FC4', ['\u0389', '\u0399']),
   ('\u1FC6', ['\u0397', '\u0342']), ('\u1FC7', ['\u0397', '\u0342', '\u0399']), ('\u1FCC', ['\u0397', '\u0399']),
   ('\u1FD2', ['\u0399', '\u0308', '\u0300']), ('\u1FD3', ['\u0399', '\u0308', '\u0301']), ('\u1FD6', ['\u0399', '\u0342']),
   ('\u1FD7', ['\u0399', '\u0308', '\u0342']), ('\u1FE2', ['\u03A5', '\u0308', '\u0300']), ('\u1FE3', ['\u03A5', '\u0308', '\u0301']),
   ('\u1FE4', ['\u03A1', '\u0313']), ('\u1FE6', ['\u03A5', '\u0342']), ('\u1FE7', ['\u03A5', '\u0308', '\u0342']),
   ('\u1FF2', ['\u1FFA', '\u0399']), ('\u1FF3', ['\u03A9', '\u0399']), ('\u1FF4', ['\u038F', '\u0399']),
   ('\u1FF6', ['\u03A9', '\u0342']), ('\u1FF7', ['\u03A9', '\u0342', '\u0399']), ('\u1FFC', ['\u03A9', '\u0399']),
   ('\uFB00', ['F', 'F']), ('\uFB01', ['F', 'I']), ('\uFB02', ['F', 'L']),
   ('\uFB03', ['F', 'F', 'I']), ('\uFB04', ['F', 'F', 'L']), ('\uFB05', ['S', 'T']),
   ('\uFB06', ['S', 'T']), ('\uFB13', ['\u0544', '\u0546']), ('\uFB14', ['\u0544', '\u0535']),
   ('\uFB15', ['\u0544', '\u053B']), ('\uFB16', ['\u054E', '\u0546']), ('\uFB17', ['\u0544', '\u053D'])]

/-- Python `str.upper()` of a single character: its one-to-many expansion
where Unicode defines one, else its single-character uppercase. -/
def pyUpperChar (c : Char) : List Char :=
  match upperExpansions.lookup c with
  | some l => l
  | none => [c.toUpper]

/-- Python `str.upper()`: full uppercasing, character by character (the
mapping is context-independent), concatenating the per-character results. -/
def pyUpper (s : String) : String := ⟨s.data.flatMap pyUpperChar⟩

/-- The gender value stored by `ensure_demo_profiles_from_csv` for a raw CSV
cell (src/main.py line 280): `str(r.get(gender, "")).strip()[:1].upper()`. -/
def normalize_gender (raw : String) : String := pyUpper (pyTake1 (pyStrip raw))

/-- A row of a benchmark CSV as seen by the "Benchmarks & Data" page filter;
only the gender column matters for the filter (values already strings after
`astype(str)`). -/
structure BenchRow where
  gender : String
deriving DecidableEq

/-- The gender filter of the "Benchmarks & Data" page (src/main.py lines
861-870): the selection is either `"All"` (no filtering) or one of the raw
values of the gender column, and filtering keeps exactly the rows whose
gender equals the selection (`view[view[gender_col].astype(str) == str(gender_val)]`). -/
def benchmarks_gender_filter (rows : List BenchRow) (gender_val : String) : List BenchRow :=
  if gender_val = "All" then rows
  else rows.filter (fun r => r.gender == gender_val)

example : benchmarks_gender_filter [⟨"M"⟩, ⟨"F"⟩, ⟨"M/F"⟩, ⟨"X"⟩] "F" = [⟨"F"⟩] := by decide
example : normalize_gender "male" = "M" := by decide
example : normalize_gender "M/F" = "M" := by decide
example : normalize_gender " Female " = "F" := by decide

/-- A row of the `athlete_profiles` table (src/main.py lines 100-118).
`NULL`able columns are `Option`s; `birth_year` is an SQL `INTEGER`. -/
structure ProfileRow where
  created_by_user_id : Option Int
  full_name : Option String
  gender : Option String
  birth_year : Option Int
  age_group : Option String
  sport : Option String
  dominant_side : Option String
  club : Option String
  city : Option String
  photo_path : Option String
  preferences_json : Option String
  created_at : String
  updated_at : String
deriving DecidableEq

/-- A row of the `athlete_metrics` table, restricted to the column that
`completion_score` can observe. -/
structure MetricEntry where
  metric_name : String
deriving DecidableEq

/-- A row of the `uploads` table, restricted to the column that
`completion_score` observes. -/
structure UploadRecord where
  upload_type : String
deriving DecidableEq

/-- `clamp` from src/main.py line 79: `max(lo, min(hi, v))`. -/
def clamp (v lo hi : Int) : Int := max lo (min hi v)

/-- The presence test of `completion_score` for a non-photo profile field:
`v is not None and str(v).strip() != ""` (src/main.py line 635). -/
def present (v : Option String) : Bool :=
  match v with
  | none => false
  | some s => pyStrip s != ""

/-- The presence test of `completion_score` for the `photo_path` field:
`v and Path(str(v)).exists()` (src/main.py line 632) — Python truthiness of
the stored string plus a file-system existence check `fs`. -/
def photoPresent (fs : String → Bool) (v : Option String) : Bool :=
  match v with
  | none => false
  | some s => s != "" && fs s

/-- The fixed per-field weight table of `completion_score`
(src/main.py lines 617-627). -/
def profile_weights : List (String × Int) :=
  [("full_name", 10), ("gender", 8), ("birth_year", 8), ("age_group", 8), ("sport", 8),
   ("dominant_side", 6), ("club", 6), ("city", 6), ("photo_path", 10)]

/-- `a.get(k)` on the dict returned by `get_athlete` (or `{}` when the
athlete does not exist); integer columns are rendered with `str` as in the
presence test. -/
def profileGet (a : Option ProfileRow) (k : String) : Option String :=
  match a with
  | none => none
  | some r =>
    if k = "full_name" then r.full_name
    else if k = "gender" then r.gender
    else if k = "birth_year" then r.birth_year.map toString
    else if k = "age_group" then r.age_group
    else if k = "sport" then r.sport
    else if k = "dominant_side" then r.dominant_side
    else if k = "club" then r.club
    else if k = "city" then r.city
    else if k = "photo_path" then r.photo_path
    else none

/-- The Profile sub-score loop of `completion_score` (src/main.py lines
628-636): fold over the weight table, awarding a field's weight when the
field is present (existence-checked for `photo_path`). -/
def profile_score (fs : String → Bool) (a : Option ProfileRow) : Int :=
  profile_weights.foldl (fun p kw =>
    if kw.1 = "photo_path" then
      (if photoPresent fs (profileGet a kw.1) then p + kw.2 else p)
    else
      (if present (profileGet a kw.1) then p + kw.2 else p)) 0

/-- `mcount = len(metrics)` where `metrics = list_metrics(athlete_id, limit=500)`
(src/main.py lines 439-449 and 614): the SQL `LIMIT 500` caps the count. -/
def list_metrics_count (metrics : List MetricEntry) : Nat :=
  (metrics.take 500).length

/-- The Metrics sub-score of `completion_score` (src/main.py lines 638-648):
a highest-threshold-first step function of the fetched entry count. -/
def metrics_score (mcount : Nat) : Int :=
  if mcount ≥ 12 then 25
  else if mcount ≥ 6 then 18
  else if mcount ≥ 3 then 10
  else if mcount ≥ 1 then 5
  else 0

/-- `uploads["upload_type"].astype(str).tolist()` for the result of
`list_uploads(athlete_id, limit=500)` (src/main.py lines 508-518 and 653):
the upload types of the (at most 500) fetched upload rows. -/
def list_upload_types (uploads : List UploadRecord) : List String :=
  (uploads.take 500).map (fun r => r.upload_type)

/-- The Uploads sub-score accumulated before the defensive `min(u, 15)`
(src/main.py lines 654-659): 6 for a `medical_pdf`, 5 for a `photo`,
4 for a `video`. -/
def uploads_score_pre (uploadTypes : List String) : Int :=
  (if uploadTypes.contains "medical_pdf" then 6 else 0)
  + (if uploadTypes.contains "photo" then 5 else 0)
  + (if uploadTypes.contains "video" then 4 else 0)

/-- The Uploads sub-score of `completion_score` (src/main.py lines 650-660):
`u = 0` when no upload row exists, otherwise the accumulated sum clamped by
`min(u, 15)`. -/
def uploads_score (uploadTypes : List String) : Int :=
  if uploadTypes.isEmpty then 0
  else min (uploads_score_pre uploadTypes) 15

/-- The breakdown dict returned by `completion_score`. -/
structure Breakdown where
  profile : Int
  metrics : Int
  uploads : Int
deriving DecidableEq

/-- `completion_score` (src/main.py lines 605-664).  Inputs: the file-system
predicate `fs`, the athlete's row as `get_athlete` returns it (`none` when
the athlete does not exist, giving `a = {}`), and the athlete's metric and
upload rows (most recent first, as the `ORDER BY ... DESC LIMIT` queries
return them).  Output: `(total, breakdown)` with
`total = int(clamp(p + m + u, 0, 100))`. -/
def completion_score (fs : String → Bool) (a : Option ProfileRow)
    (metrics : List MetricEntry) (uploads : List UploadRecord) : Int × Breakdown :=
  let p := profile_score fs a
  let m := metrics_score (list_metrics_count metrics)
  let u := uploads_score (list_upload_types uploads)
  (clamp (p + m + u) 0 100, ⟨p, m, u⟩)

/-- Python `str.lower()` (ASCII letters), used for the case-insensitive
column-name probing of `ensure_demo_profiles_from_csv`. -/
def pyLower (s : String) : String := ⟨s.data.map Char.toLower⟩

/-- A loaded CSV table after `safe_df`: a list of column names and rows in
which every cell is a string (missing/NaN cells already replaced by `""`). -/
structure CsvTable where
  columns : List String
  rows : List (List (String × String))
deriving DecidableEq

/-- `r.get(c, "")` on a row dict. -/
def rowGet (r : List (String × String)) (c : String) : String :=
  match r.lookup c with
  | some v => v
  | none => ""

/-- The column-resolution helper `col(*names)` of
`ensure_demo_profiles_from_csv` (src/main.py lines 227-233): build
`cols = {c.lower(): c for c in demo.columns}` (a later column overwrites an
earlier one with the same lowercase name) and return the original name of
the first requested lowercase name that is present. -/
def resolveCol (columns : List String) (names : List String) : Option String :=
  names.findSome? (fun n => columns.reverse.find? (fun c => pyLower c == n))

/-- Python truthiness of the result of `col(...)`: `not a_id` is true when
the column was not found or its name is the empty string. -/
def optFalsy (v : Option String) : Bool :=
  match v with
  | none => true
  | some s => s == ""

/-- `int(str(by).strip()) if str(by).strip() else None`, with `None` on a
parse failure (src/main.py lines 253-257). -/
def parse_birth_year (cell : String) : Option Int :=
  let s := pyStrip cell
  if s == "" then none else s.toInt?

/-- The age-group derivation of `ensure_demo_profiles_from_csv`
(src/main.py lines 259-269): `None` when `by_int` is falsy (absent or `0`),
otherwise bucketed by `year_now() - by_int`. -/
def age_group_of (yearNow : Int) (by_int : Option Int) : Option String :=
  match by_int with
  | none => none
  | some b =>
    if b = 0 then none
    else
      let age := yearNow - b
      if age ≤ 10 then some "U10"
      else if age ≤ 14 then some "U14"
      else if age ≤ 17 then some "U17"
      else some "U23"

/-- The values that one CSV row contributes to the
`INSERT OR IGNORE INTO athlete_profiles` statement (src/main.py lines
271-291), restricted to the columns the claims observe. -/
structure InsertedProfile where
  athlete_id : String
  full_name : String
  gender : Option String
  birth_year : Option Int
  age_group : Option String
  sport : Option String
  dominant_side : Option String
  club : Option String
  city : Option String
deriving DecidableEq

/-- The per-row body of the import loop of `ensure_demo_profiles_from_csv`
(src/main.py lines 248-291): skip the row when the stripped athlete id is
empty, otherwise produce the inserted values.  `aIdCol`/`fullNameCol` are the
resolved (present) key columns; the remaining columns are optional and a
missing column stores `NULL` (for `birth_year`, `r.get(None, "")` gives `""`,
which parses to `None`). -/
def import_row (yearNow : Int) (aIdCol fullNameCol : String)
    (genderCol birthCol sportCol domCol clubCol cityCol : Option String)
    (r : List (String × String)) : Option InsertedProfile :=
  let athlete_id := pyStrip (rowGet r aIdCol)
  if athlete_id == "" then none
  else
    let byCell := match birthCol with
      | some c => rowGet r c
      | none => ""
    let by_int := parse_birth_year byCell
    let fn := pyStrip (rowGet r fullNameCol)
    some
      { athlete_id := athlete_id
        full_name := if fn == "" then athlete_id else fn
        gender := match genderCol with
          | some c => some (normalize_gender (rowGet r c))
          | none => none
        birth_year := by_int
        age_group := age_group_of yearNow by_int
        sport := match sportCol with
          | some c => some (pyStrip (rowGet r c))
          | none => none
        dominant_side := match domCol with
          | some c => some (pyStrip (rowGet r c))
          | none => none
        club := match clubCol with
          | some c => some (pyStrip (rowGet r c))
          | none => none
        city := match cityCol with
          | some c => some (pyStrip (rowGet r c))
          | none => none }

/-- `ensure_demo_profiles_from_csv` (src/main.py lines 218-294), observed
through the rows it attempts to insert.  The function returns early — with
no inserts and no signal to the caller (the Python function returns `None`
on every path) — when the CSV is missing or empty, and likewise when no
athlete-id column or no name column can be resolved.  (`INSERT OR IGNORE`
deduplication against rows already in the table is not modelled; the claims
concern the values each row contributes.) -/
def ensure_demo_profiles_from_csv (yearNow : Int) (t : Option CsvTable) : List InsertedProfile :=
  match t with
  | none => []
  | some tbl =>
    if tbl.rows.isEmpty then []
    else
      let a_id := resolveCol tbl.columns ["athlete_id", "id"]
      let full_name := resolveCol tbl.columns ["full_name", "name"]
      let gender := resolveCol tbl.columns ["gender", "sex"]
      let birth_year := resolveCol tbl.columns ["birth_year", "yob", "year_of_birth"]
      let sport := resolveCol tbl.columns ["sport"]
      let dom := resolveCol tbl.columns ["dominant_side", "dominant"]
      let club := resolveCol tbl.columns ["club"]
      let city := resolveCol tbl.columns ["city"]
      if optFalsy a_id || optFalsy full_name then []
      else
        tbl.rows.filterMap
          (import_row yearNow (a_id.getD "") (full_name.getD "") gender birth_year sport dom club city)

/-- The `athlete_profiles` table keyed by its primary key `athlete_id`. -/
def ProfilesTable := String → Option ProfileRow

/-- `get_athlete` (src/main.py lines 361-374): the single-row lookup by
primary key. -/
def get_athlete (t : ProfilesTable) (athlete_id : String) : Option ProfileRow :=
  t athlete_id

/-- The `data` dict passed to `upsert_athlete_profile`. -/
structure ProfileData where
  full_name : Option String
  gender : Option String
  birth_year : Option Int
  age_group : Option String
  sport : Option String
  dominant_side : Option String
  club : Option String
  city : Option String
  photo_path : Option String
  preferences_json : Option String
deriving DecidableEq

/-- `upsert_athlete_profile` (src/main.py lines 377-424): if no row with the
given id exists, INSERT a fresh row (with `created_by_user_id` and both
timestamps set to `now`); otherwise UPDATE exactly the ten profile columns
and `updated_at` of that row. -/
def upsert_athlete_profile (t : ProfilesTable) (athlete_id : String)
    (data : ProfileData) (created_by_user_id : Option Int) (now : String) : ProfilesTable :=
  match get_athlete t athlete_id with
  | none => fun k =>
      if k = athlete_id then
        some { created_by_user_id := created_by_user_id
               full_name := data.full_name
               gender := data.gender
               birth_year := data.birth_year
               age_group := data.age_group
               sport := data.sport
               dominant_side := data.dominant_side
               club := data.club
               city := data.city
               photo_path := data.photo_path
               preferences_json := data.preferences_json
               created_at := now
               updated_at := now }
      else t k
  | some existing => fun k =>
      if k = athlete_id then
        some { existing with
               full_name := data.full_name
               gender := data.gender
               birth_year := data.birth_year
               age_group := data.age_group
               sport := data.sport
               dominant_side := data.dominant_side
               club := data.club
               city := data.city
               photo_path := data.photo_path
               preferences_json := data.preferences_json
               updated_at := now }
      else t k

/-- The benchmark dataset of the spec scenario:
`[{gender:"M"}, {gender:"F"}, {gender:"M/F"}, {gender:"X"}]`. -/
def scenarioDataset : List BenchRow := [⟨"M"⟩, ⟨"F"⟩, ⟨"M/F"⟩, ⟨"X"⟩]

/-- An athlete row with all nine profile fields present (the fields'
stored values are arbitrary non-blank strings). -/
def sampleFullRow : ProfileRow :=
  { created_by_user_id := some 1
    full_name := some "A"
    gender := some "M/F"
    birth_year := some 2010
    age_group := some "U17"
    sport := some "Football"
    dominant_side := some "Right"
    club := some "Club"
    city := some "Riyadh"
    photo_path := some "uploads/A001/photo/p.png"
    preferences_json := none
    created_at := "2026-01-01 00:00:00"
    updated_at := "2026-01-01 00:00:00" }

/-- A file system on which `sampleFullRow`'s stored photo path exists. -/
def sampleFs : String → Bool := fun s => s == "uploads/A001/photo/p.png"

/-- Exactly six metric entries (with repeated metric names: the score counts
entries, not distinct names). -/
def sixMetrics : List MetricEntry :=
  [⟨"Sprint 30m"⟩, ⟨"Sprint 30m"⟩, ⟨"VO2max"⟩, ⟨"BMI"⟩, ⟨"Vertical Jump"⟩, ⟨"Sprint 30m"⟩]

/-- A CSV table that has a data row but neither an athlete-id column nor a
name column: no linkage key is available. -/
def tableNoKeys : CsvTable :=
  ⟨["team", "score"], [[("team", "U14A"), ("score", "7")]]⟩

/-- A CSV table with the proper key columns but no data rows: a valid empty
import. -/
def tableEmptyRows : CsvTable := ⟨["athlete_id", "full_name"], []⟩

/-- A CSV table with a gender column whose only cell is the raw string
`"M/F"`. -/
def tableWithGender : CsvTable :=
  ⟨["athlete_id", "full_name", "gender"],
   [[("athlete_id", "A1"), ("full_name", "Ali"), ("gender", "M/F")]]⟩

/-- The profile that importing `tableWithGender` inserts. -/
def importedProfile : InsertedProfile :=
  { athlete_id := "A1"
    full_name := "Ali"
    gender := some "M"
    birth_year := none
    age_group := none
    sport := none
    dominant_side := none
    club := none
    city := none }

/-- A CSV table whose gender cell is the raw string `"ß"` (U+00DF), a
character whose Python uppercase expands to the two characters `"SS"`. -/
def tableWithEszett : CsvTable :=
  ⟨["athlete_id", "full_name", "gender"],
   [[("athlete_id", "A2"), ("full_name", "Max"), ("gender", "\u00DF")]]⟩

/-- The profile that importing `tableWithEszett` inserts: its stored gender
is the two-character string `"SS"`. -/
def eszettProfile : InsertedProfile :=
  { athlete_id := "A2"
    full_name := "Max"
    gender := some "SS"
    birth_year := none
    age_group := none
    sport := none
    dominant_side := none
    club := none
    city := none }

/-- A one-row profiles table holding `sampleFullRow` under id `"A001"`. -/
def sampleTable : ProfilesTable :=
  fun k => if k = "A001" then some sampleFullRow else none

/-- A `data` dict for an update of `sampleFullRow`. -/
def sampleUpdateData : ProfileData :=
  { full_name := some "A. Updated"
    gender := some "F"
    birth_year := some 2011
    age_group := some "U14"
    sport := some "Tennis"
    dominant_side := some "Left"
    club := some "NewClub"
    city := some "Jeddah"
    photo_path := none
    preferences_json := some "speed-focus" }

/-- Twelve metric entries. -/
def twelveMetrics : List MetricEntry :=
  sixMetrics ++ sixMetrics

/-- One upload of each scored type. -/
def threeUploads : List UploadRecord :=
  [⟨"medical_pdf"⟩, ⟨"photo"⟩, ⟨"video"⟩]

/-- C1 (counterexample): the claim fails on the code.  Filtering the spec's
scenario dataset `[{gender:"M"}, {gender:"F"}, {gender:"M/F"}, {gender:"X"}]`
with selection `"F"` does NOT include the `"M/F"` row, and the result is not
the claimed 2nd-and-3rd-row set. -/
theorem C1_counterexample :
    BenchRow.mk "M/F" ∉ benchmarks_gender_filter scenarioDataset "F"
    ∧ benchmarks_gender_filter scenarioDataset "F" ≠ [⟨"F"⟩, ⟨"M/F"⟩] := by
  decide

/-- C1 (amended): the Benchmarks & Data gender filter uses strict string
equality.  For every record set and every non-`"All"` selection, a record is
included iff its stored gender equals the selection exactly (so `"M/F"` rows
are dropped from both single-gender views), and the scenario dataset filtered
with `"F"` yields exactly the `"F"` row. -/
theorem C1_gender_filter_strict_equality (rows : List BenchRow) (sel : String) (r : BenchRow)
    (hsel : sel ≠ "All") :
    (r ∈ benchmarks_gender_filter rows sel ↔ r ∈ rows ∧ r.gender = sel)
    ∧ benchmarks_gender_filter scenarioDataset "F" = [⟨"F"⟩] := by
  refine ⟨?_, by decide⟩
  simp [benchmarks_gender_filter, hsel, List.mem_filter]

/-- Witness for C1: the amended theorem applied at the scenario dataset,
selection `"F"`, record `{gender:"F"}`. -/
theorem C1_gender_filter_strict_equality_witness :
    ("F" ≠ "All")
    ∧ (BenchRow.mk "F" ∈ benchmarks_gender_filter scenarioDataset "F"
        ↔ BenchRow.mk "F" ∈ scenarioDataset ∧ (BenchRow.mk "F").gender = "F") :=
  ⟨by decide, (C1_gender_filter_strict_equality scenarioDataset "F" ⟨"F"⟩ (by decide)).1⟩

/-- C2 (code evaluated at the failing input): the fixed per-field weights of
`completion_score` sum to 70, not 60, and an athlete record with all nine
profile fields present (photo file existing) receives Profile sub-score 70,
exceeding the claimed bound of 60.  This contradicts the function's own
docstring, "Profile fields (60)". -/
theorem C2_profile_weights_sum_70 :
    (profile_weights.map Prod.snd).sum = 70
    ∧ profile_score sampleFs (some sampleFullRow) = 70 := by
  decide

/-- C3 (code evaluated at the failing input): on the spec scenario — all nine
profile fields present, photo file existing, six metric entries, one `photo`
upload — `completion_score` returns Profile=70, Metrics=18, Uploads=5 and
total 93, not the claimed 60/18/5 and 83. -/
theorem C3_scenario_score :
    completion_score sampleFs (some sampleFullRow) sixMetrics [⟨"photo"⟩] =
      (93, ⟨70, 18, 5⟩) := by
  decide

/-- C7 (counterexample): importing a table that has a data row but neither an
athlete-id column nor a name column produces exactly the same observable
outcome as a valid empty import — no inserts and no signal (the Python
function returns `None` on every path), so no "cannot link" condition
distinct from an empty result is reported. -/
theorem C7_counterexample :
    ensure_demo_profiles_from_csv 2026 (some tableNoKeys)
      = ensure_demo_profiles_from_csv 2026 (some tableEmptyRows)
    ∧ ensure_demo_profiles_from_csv 2026 (some tableNoKeys) = [] := by
  decide

/-- C7 (amended): when neither an athlete-id column nor a usable name column
resolves, `ensure_demo_profiles_from_csv` returns early, inserting nothing
and signalling nothing: its outcome is indistinguishable from a valid empty
match set. -/
theorem C7_no_key_silent_return (yearNow : Int) (t : CsvTable)
    (hid : optFalsy (resolveCol t.columns ["athlete_id", "id"]) = true)
    (hname : optFalsy (resolveCol t.columns ["full_name", "name"]) = true) :
    ensure_demo_profiles_from_csv yearNow (some t) = [] := by
  simp [ensure_demo_profiles_from_csv, hid, hname]

/-- Witness for C7: the amended theorem applied to the concrete keyless
table. -/
theorem C7_no_key_silent_return_witness :
    optFalsy (resolveCol tableNoKeys.columns ["athlete_id", "id"]) = true
    ∧ ensure_demo_profiles_from_csv 2026 (some tableNoKeys) = [] :=
  ⟨by decide, C7_no_key_silent_return 2026 tableNoKeys (by decide) (by decide)⟩

theorem dropWhile_head_false {α : Type} (p : α → Bool) :
    ∀ (l : List α) (c : α) (t : List α), l.dropWhile p = c :: t → p c = false := by
  intro l
  induction l with
  | nil => intro c t h; simp [List.dropWhile] at h
  | cons a l ih =>
    intro c t h
    rw [List.dropWhile_cons] at h
    by_cases hp : p a
    · rw [if_pos hp] at h; exact ih c t h
    · rw [if_neg hp] at h
      cases h; exact Bool.of_not_eq_true hp

theorem dropWhile_append_singleton {α : Type} (p : α → Bool) (c : α) (hc : p c = false) :
    ∀ (l : List α), (l ++ [c]).dropWhile p = l.dropWhile p ++ [c] := by
  intro l
  induction l with
  | nil => simp [List.dropWhile_cons, hc]
  | cons a l ih =>
    rw [List.cons_append, List.dropWhile_cons, List.dropWhile_cons]
    by_cases hp : p a
    · simp only [if_pos hp, ih]
    · simp [if_neg hp]

theorem char_toNat_ofNat {n : Nat} (h : n.isValidChar) : (Char.ofNat n).toNat = n := by
  rw [Char.ofNat, dif_pos h]
  rfl

theorem char_eq_iff_toNat {c d : Char} : c = d ↔ c.toNat = d.toNat := by
  constructor
  · intro h; rw [h]
  · intro h
    exact Char.ext (UInt32.toNat.inj h)

theorem isWhitespace_iff (c : Char) :
    c.isWhitespace = true ↔ (c.toNat = 32 ∨ c.toNat = 9 ∨ c.toNat = 13 ∨ c.toNat = 10) := by
  simp only [Char.isWhitespace, Bool.or_eq_true, decide_eq_true_eq]
  rw [@char_eq_iff_toNat c ' ', @char_eq_iff_toNat c '\t', @char_eq_iff_toNat c '\r',
      @char_eq_iff_toNat c '\n']
  have e1 : ' '.toNat = 32 := rfl
  have e2 : '\t'.toNat = 9 := rfl
  have e3 : '\r'.toNat = 13 := rfl
  have e4 : '\n'.toNat = 10 := rfl
  rw [e1, e2, e3, e4]
  tauto

theorem toUpper_toNat (c : Char) :
    (97 ≤ c.toNat ∧ c.toNat ≤ 122 → c.toUpper.toNat = c.toNat - 32)
    ∧ (¬(97 ≤ c.toNat ∧ c.toNat ≤ 122) → c.toUpper = c) := by
  constructor
  · intro h
    simp only [Char.toUpper]
    rw [if_pos ⟨h.1, h.2⟩]
    exact char_toNat_ofNat (Or.inl (by omega))
  · intro h
    simp only [Char.toUpper]
    rw [if_neg (by omega)]

theorem toUpper_idem (c : Char) : c.toUpper.toUpper = c.toUpper := by
  by_cases h : 97 ≤ c.toNat ∧ c.toNat ≤ 122
  · have h1 := (toUpper_toNat c).1 h
    exact (toUpper_toNat c.toUpper).2 (by omega)
  · rw [(toUpper_toNat c).2 h, (toUpper_toNat c).2 h]

theorem isWhitespace_toUpper (c : Char) (h : c.isWhitespace = false) :
    c.toUpper.isWhitespace = false := by
  by_cases hc : 97 ≤ c.toNat ∧ c.toNat ≤ 122
  · have h1 := (toUpper_toNat c).1 hc
    rw [Bool.eq_false_iff]
    intro hw
    have := (isWhitespace_iff c.toUpper).mp hw
    omega
  · rw [(toUpper_toNat c).2 hc]; exact h

theorem pyStripL_nonWhitespace_head (l : List Char) :
    pyStripL l = [] ∨
      ∃ c t, pyStripL l = c :: t ∧ c.isWhitespace = false := by
  cases h : l.dropWhile Char.isWhitespace with
  | nil => left; simp [pyStripL, h]
  | cons c t =>
    right
    have hc : c.isWhitespace = false := dropWhile_head_false _ l c t h
    refine ⟨c, ((t.reverse.dropWhile Char.isWhitespace).reverse), ?_, hc⟩
    simp only [pyStripL, h, List.reverse_cons]
    rw [dropWhile_append_singleton _ c hc]
    simp

theorem pyStripL_singleton (c : Char) (hc : c.isWhitespace = false) :
    pyStripL [c] = [c] := by
  simp [pyStripL, List.dropWhile_cons, hc]

theorem mem_of_mem_dropWhile {α : Type} (p : α → Bool) :
    ∀ (l : List α) (c : α), c ∈ l.dropWhile p → c ∈ l := by
  intro l
  induction l with
  | nil => intro c h; simp [List.dropWhile] at h
  | cons a l ih =>
    intro c h
    rw [List.dropWhile_cons] at h
    by_cases hp : p a
    · rw [if_pos hp] at h
      exact List.mem_cons_of_mem a (ih c h)
    · rw [if_neg hp] at h
      exact h

theorem mem_pyStripL (l : List Char) (c : Char) (h : c ∈ pyStripL l) : c ∈ l := by
  simp only [pyStripL, List.mem_reverse] at h
  exact mem_of_mem_dropWhile _ _ _ (List.mem_reverse.mp (mem_of_mem_dropWhile _ _ _ h))

theorem lookup_mem {α β : Type} [BEq α] [LawfulBEq α] :
    ∀ (l : List (α × β)) (a : α) (b : β), l.lookup a = some b → (a, b) ∈ l := by
  intro l
  induction l with
  | nil => intro a b h; exact absurd h (by simp [List.lookup])
  | cons q l ih =>
    intro a b h
    rcases q with ⟨k, v⟩
    cases hk : a == k with
    | true =>
      simp only [List.lookup, hk] at h
      cases h
      have hka : a = k := eq_of_beq hk
      subst hka
      exact List.mem_cons_self _ _
    | false =>
      simp only [List.lookup, hk] at h
      exact List.mem_cons_of_mem _ (ih a b h)

theorem lookup_eq_none {α β : Type} [BEq α] [LawfulBEq α] :
    ∀ (l : List (α × β)) (a : α), (∀ q ∈ l, q.1 ≠ a) → l.lookup a = none := by
  intro l
  induction l with
  | nil => intro a _; rfl
  | cons q l ih =>
    intro a h
    rcases q with ⟨k, v⟩
    have hk : (a == k) = false := by
      rw [beq_eq_false_iff_ne]
      exact Ne.symm (h (k, v) (List.mem_cons_self _ _))
    simp only [List.lookup, hk]
    exact ih a (fun q hq => h q (List.mem_cons_of_mem _ hq))

theorem pyUpperChar_eq_single (c : Char) (hc : upperExpansions.lookup c = none) :
    pyUpperChar c = [c.toUpper] := by
  simp [pyUpperChar, hc]

theorem upperExpansions_keys_large : ∀ q ∈ upperExpansions, 223 ≤ q.1.toNat := by
  decide

theorem lookup_toUpper_none (c : Char) (hc : upperExpansions.lookup c = none) :
    upperExpansions.lookup c.toUpper = none := by
  by_cases h : 97 ≤ c.toNat ∧ c.toNat ≤ 122
  · have h1 := (toUpper_toNat c).1 h
    apply lookup_eq_none
    intro q hq hqe
    have h223 := upperExpansions_keys_large q hq
    have hn : q.1.toNat = c.toUpper.toNat := congrArg Char.toNat hqe
    omega
  · rw [(toUpper_toNat c).2 h]
    exact hc

theorem pyUpperChar_ne_MF (c : Char) : pyUpperChar c ≠ "M/F".data := by
  cases hl : upperExpansions.lookup c with
  | none =>
    rw [pyUpperChar_eq_single c hl]
    intro hEq
    have := congrArg List.length hEq
    simp [String.data] at this
  | some l =>
    have hmem := lookup_mem upperExpansions c l hl
    have hall : ∀ q ∈ upperExpansions, q.2 ≠ "M/F".data := by decide
    have he : pyUpperChar c = l := by simp [pyUpperChar, hl]
    rw [he]
    exact hall (c, l) hmem

theorem normalize_gender_ne_MF (raw : String) : normalize_gender raw ≠ "M/F" := by
  intro hEq
  have hd : ((pyStripL raw.data).take 1).flatMap pyUpperChar = "M/F".data :=
    congrArg String.data hEq
  rcases pyStripL_nonWhitespace_head raw.data with h0 | ⟨c, t, h0, _⟩
  · rw [h0] at hd
    exact absurd hd (by decide)
  · rw [h0] at hd
    have ht : (c :: t).take 1 = [c] := rfl
    rw [ht] at hd
    have hflat : ([c]).flatMap pyUpperChar = pyUpperChar c := by simp
    rw [hflat] at hd
    exact pyUpperChar_ne_MF c hd

theorem normalize_gender_idem_of_no_expansion (x : String)
    (h : ∀ c ∈ x.data, upperExpansions.lookup c = none) :
    normalize_gender (normalize_gender x) = normalize_gender x := by
  rcases pyStripL_nonWhitespace_head x.data with h0 | ⟨c, t, h0, hws⟩
  · have e1 : normalize_gender x = "" := by
      show String.mk (((pyStripL x.data).take 1).flatMap pyUpperChar) = ""
      rw [h0]
      rfl
    rw [e1]
    rfl
  · have hcmem : c ∈ pyStripL x.data := by rw [h0]; exact List.mem_cons_self c t
    have hc : upperExpansions.lookup c = none := h c (mem_pyStripL x.data c hcmem)
    have e1 : normalize_gender x = String.mk [c.toUpper] := by
      show String.mk (((pyStripL x.data).take 1).flatMap pyUpperChar) = String.mk [c.toUpper]
      rw [h0]
      have ht : (c :: t).take 1 = [c] := rfl
      rw [ht]
      have hflat : ([c]).flatMap pyUpperChar = pyUpperChar c := by simp
      rw [hflat, pyUpperChar_eq_single c hc]
    rw [e1]
    show String.mk (((pyStripL [c.toUpper]).take 1).flatMap pyUpperChar) = String.mk [c.toUpper]
    rw [pyStripL_singleton c.toUpper (isWhitespace_toUpper c hws)]
    have ht2 : ([c.toUpper]).take 1 = [c.toUpper] := rfl
    rw [ht2]
    have hflat2 : ([c.toUpper]).flatMap pyUpperChar = pyUpperChar c.toUpper := by simp
    rw [hflat2, pyUpperChar_eq_single c.toUpper (lookup_toUpper_none c hc), toUpper_idem]

/-- C4 (counterexample): gender normalisation in the CSV import does not
canonicalise into `{M, F, M/F}` and is not idempotent on every string.  The
raw string `"M/F"` normalises to `"M"`, not `"M/F"`; the unrecognised string
`"xyz"` is stored as `"X"` rather than treated as missing; and `"ß"`, whose
Python uppercase is `"SS"`, normalises to `"SS"` while a second normalisation
gives `"S"`, so `normalize(normalize("ß")) ≠ normalize("ß")`. -/
theorem C4_counterexample :
    normalize_gender "M/F" ≠ "M/F" ∧ normalize_gender "M/F" = "M"
    ∧ normalize_gender "xyz" = "X"
    ∧ normalize_gender "\u00DF" = "SS"
    ∧ normalize_gender (normalize_gender "\u00DF") ≠ normalize_gender "\u00DF" := by
  decide

/-- C4 (amended): the import's gender normalisation keeps only the first
character of the trimmed raw string and uppercases it with Python's full
(possibly one-to-many) uppercase mapping.  `normalize("male") =
normalize("MALE") = "M"` holds, but an `"M/F"`-style string maps to `"M"`
(never `"M/F"`), unrecognised strings map to the uppercase of their first
character instead of being treated as missing, and idempotence holds only
for strings none of whose characters uppercase-expand (in particular every
ASCII string): an expanding first character such as `"ß"` breaks it, since
`normalize("ß") = "SS"` but `normalize("SS") = "S"`. -/
theorem C4_normalize_first_char_conditional_idem (x : String)
    (h : ∀ c ∈ x.data, upperExpansions.lookup c = none) :
    normalize_gender (normalize_gender x) = normalize_gender x
    ∧ normalize_gender "male" = "M" ∧ normalize_gender "MALE" = "M"
    ∧ normalize_gender (normalize_gender "\u00DF") = "S" :=
  ⟨normalize_gender_idem_of_no_expansion x h, by decide, by decide, by decide⟩

/-- Witness for C4: the amended idempotence applied to the concrete
expansion-free string `"male"`. -/
theorem C4_normalize_first_char_conditional_idem_witness :
    (∀ c ∈ ("male" : String).data, upperExpansions.lookup c = none)
    ∧ normalize_gender (normalize_gender "male") = normalize_gender "male" :=
  ⟨by decide, (C4_normalize_first_char_conditional_idem "male" (by decide)).1⟩

theorem import_row_gender_shape (yearNow : Int) (aIdCol fullNameCol : String)
    (genderCol birthCol sportCol domCol clubCol cityCol : Option String)
    (r : List (String × String)) (p : InsertedProfile)
    (h : import_row yearNow aIdCol fullNameCol genderCol birthCol sportCol domCol
          clubCol cityCol r = some p) :
    p.gender = none ∨ ∃ raw, p.gender = some (normalize_gender raw) := by
  simp only [import_row] at h
  by_cases ha : (pyStrip (rowGet r aIdCol) == "") = true
  · rw [if_pos ha] at h
    exact absurd h (by simp)
  · rw [if_neg ha] at h
    have h2 := Option.some.inj h
    subst h2
    cases genderCol with
    | none => left; rfl
    | some c => right; exact ⟨rowGet r c, rfl⟩

theorem ensure_gender_shape (yearNow : Int) (t : Option CsvTable) (p : InsertedProfile)
    (hp : p ∈ ensure_demo_profiles_from_csv yearNow t) :
    p.gender = none ∨ ∃ raw, p.gender = some (normalize_gender raw) := by
  cases t with
  | none => simp [ensure_demo_profiles_from_csv] at hp
  | some tbl =>
    simp only [ensure_demo_profiles_from_csv] at hp
    split at hp
    · simp at hp
    · split at hp
      · simp at hp
      · obtain ⟨r, _, heq⟩ := List.mem_filterMap.mp hp
        exact import_row_gender_shape _ _ _ _ _ _ _ _ _ _ _ heq

/-- C8 (counterexample): the claimed length bound fails on the code.
Importing a table whose gender cell is `"ß"` stores the gender `"SS"` —
`str.upper`'s one-to-many expansion of the single kept character — a string
of length 2, not at most 1. -/
theorem C8_counterexample :
    ensure_demo_profiles_from_csv 2026 (some tableWithEszett) = [eszettProfile]
    ∧ eszettProfile.gender = some "SS"
    ∧ ("SS" : String).length = 2 := by
  decide

/-- C8 (amended): every profile inserted by the CSV import stores as gender
either `NULL` or `str(raw).strip()[:1].upper()` for some raw cell — the full
uppercase of the first kept character, which may be longer than one character
(a cell `"ß"` stores `"SS"`) — but no expansion or single-character uppercase
ever equals `"M/F"`, so no imported profile can carry the gender `"M/F"`.
In particular a CSV cell `"M/F"` is stored as `"M"` and `"Female"` as
`"F"`. -/
theorem C8_imported_gender_never_MF (yearNow : Int) (t : Option CsvTable) (p : InsertedProfile)
    (hp : p ∈ ensure_demo_profiles_from_csv yearNow t) :
    (p.gender = none ∨ ∃ raw, p.gender = some (normalize_gender raw))
    ∧ p.gender ≠ some "M/F"
    ∧ normalize_gender "M/F" = "M" ∧ normalize_gender "Female" = "F" := by
  have hshape := ensure_gender_shape yearNow t p hp
  refine ⟨hshape, ?_, by decide, by decide⟩
  intro hMF
  rcases hshape with h | ⟨raw, h⟩
  · rw [h] at hMF
    exact absurd hMF (by simp)
  · rw [h] at hMF
    exact normalize_gender_ne_MF raw (Option.some.inj hMF)

/-- Witness for C8: the invariant applied to the import of a concrete table
whose gender cell is the raw string `"M/F"`, which is stored as `"M"`. -/
theorem C8_imported_gender_never_MF_witness :
    importedProfile ∈ ensure_demo_profiles_from_csv 2026 (some tableWithGender)
    ∧ importedProfile.gender ≠ some "M/F" :=
  ⟨by decide,
   (C8_imported_gender_never_MF 2026 (some tableWithGender) importedProfile (by decide)).2.1⟩

/-- C5: the Metrics sub-score of `completion_score` is the claimed
highest-threshold-first step function of the total number of metric entries
(names, repeated or not, are irrelevant): ≥12 → 25, ≥6 → 18, ≥3 → 10,
≥1 → 5, else 0.  (The code counts the at most 500 fetched rows, which agrees
with the total count on every threshold.) -/
theorem C5_metrics_step_of_count (fs : String → Bool) (a : Option ProfileRow)
    (metrics : List MetricEntry) (uploads : List UploadRecord) :
    (completion_score fs a metrics uploads).2.metrics =
      (if metrics.length ≥ 12 then (25 : Int) else if metrics.length ≥ 6 then 18
       else if metrics.length ≥ 3 then 10 else if metrics.length ≥ 1 then 5 else 0) := by
  simp only [completion_score, metrics_score, list_metrics_count, List.length_take]
  split_ifs <;> omega

theorem foldl_le_of_step_mem {α : Type} (f : Int → α → Int) :
    ∀ (l : List α), (∀ x ∈ l, ∀ acc : Int, acc ≤ f acc x) → ∀ init, init ≤ l.foldl f init := by
  intro l
  induction l with
  | nil => intro _ init; simp
  | cons a l ih =>
    intro h init
    simp only [List.foldl_cons]
    exact le_trans (h a (by simp) init) (ih (fun x hx => h x (by simp [hx])) (f init a))

theorem profile_score_nonneg (fs : String → Bool) (a : Option ProfileRow) :
    0 ≤ profile_score fs a := by
  apply foldl_le_of_step_mem
  intro kw hkw acc
  have h2 : 0 ≤ kw.2 := by
    simp only [profile_weights, List.mem_cons, List.not_mem_nil, or_false] at hkw
    rcases hkw with rfl | rfl | rfl | rfl | rfl | rfl | rfl | rfl | rfl <;> decide
  split_ifs <;> omega

theorem uploads_score_pre_le (types : List String) : uploads_score_pre types ≤ 15 := by
  simp only [uploads_score_pre]
  split_ifs <;> omega

theorem uploads_score_pre_nonneg (types : List String) : 0 ≤ uploads_score_pre types := by
  simp only [uploads_score_pre]
  split_ifs <;> omega

/-- C6: boundary values of `completion_score`.  A record with all nine
profile fields present (photo existing on disk), at least 12 metric entries
and at least one fetched upload of each scored type totals exactly 100; an
entirely empty record (no row, no metrics, no uploads) totals exactly 0; and
on every input the total equals `clamp(Profile + Metrics + Uploads, 0, 100)`
and therefore lies in `[0, 100]`. -/
theorem C6_score_boundaries (fs : String → Bool) (a : ProfileRow)
    (metrics : List MetricEntry) (uploads : List UploadRecord)
    (h1 : present a.full_name = true) (h2 : present a.gender = true)
    (h3 : present (a.birth_year.map toString) = true) (h4 : present a.age_group = true)
    (h5 : present a.sport = true) (h6 : present a.dominant_side = true)
    (h7 : present a.club = true) (h8 : present a.city = true)
    (h9 : photoPresent fs a.photo_path = true)
    (hm : 12 ≤ metrics.length)
    (hu1 : (list_upload_types uploads).contains "medical_pdf" = true)
    (hu2 : (list_upload_types uploads).contains "photo" = true)
    (hu3 : (list_upload_types uploads).contains "video" = true) :
    (completion_score fs (some a) metrics uploads).1 = 100
    ∧ (∀ fs2, (completion_score fs2 none [] []).1 = 0)
    ∧ (∀ fs2 a2 ms us, (completion_score fs2 a2 ms us).1 =
        clamp ((completion_score fs2 a2 ms us).2.profile
          + (completion_score fs2 a2 ms us).2.metrics
          + (completion_score fs2 a2 ms us).2.uploads) 0 100
        ∧ 0 ≤ (completion_score fs2 a2 ms us).1
        ∧ (completion_score fs2 a2 ms us).1 ≤ 100) := by
  refine ⟨?_, ?_, ?_⟩
  · have hp : profile_score fs (some a) = 70 := by
      simp [profile_score, profile_weights, profileGet, h1, h2, h3, h4, h5, h6, h7, h8, h9]
    have hms : metrics_score (list_metrics_count metrics) = 25 := by
      simp only [metrics_score, list_metrics_count, List.length_take]
      rw [if_pos (by omega)]
    have hne : (list_upload_types uploads).isEmpty = false := by
      cases he : (list_upload_types uploads).isEmpty
      · rfl
      · rw [List.isEmpty_iff] at he
        rw [he] at hu1
        simp at hu1
    have hus : uploads_score (list_upload_types uploads) = 15 := by
      simp only [uploads_score, hne, Bool.false_eq_true, if_false, uploads_score_pre,
        hu1, hu2, hu3, if_true]
      decide
    simp only [completion_score, hp, hms, hus, clamp]
    decide
  · intro fs2
    rfl
  · intro fs2 a2 ms us
    refine ⟨rfl, ?_, ?_⟩ <;> simp only [completion_score, clamp] <;> omega

/-- Witness for C6: the boundary theorem applied to a concrete full record,
12 concrete metric entries and one concrete upload of each type. -/
theorem C6_score_boundaries_witness :
    present sampleFullRow.full_name = true
    ∧ 12 ≤ twelveMetrics.length
    ∧ (completion_score sampleFs (some sampleFullRow) twelveMetrics threeUploads).1 = 100 :=
  ⟨by decide, by decide,
   (C6_score_boundaries sampleFs sampleFullRow twelveMetrics threeUploads
      (by decide) (by decide) (by decide) (by decide) (by decide) (by decide) (by decide)
      (by decide) (by decide) (by decide) (by decide) (by decide) (by decide)).1⟩

/-- C9: `upsert_athlete_profile` on an existing athlete takes the UPDATE
branch: the athlete's row afterwards is the old row with exactly the ten
profile columns and `updated_at` replaced — in particular `created_at` and
`created_by_user_id` are unchanged — and every other athlete's row is
untouched. -/
theorem C9_upsert_update_frame (t : ProfilesTable) (athlete_id : String)
    (data : ProfileData) (cb : Option Int) (now : String) (ex : ProfileRow)
    (h : get_athlete t athlete_id = some ex) :
    upsert_athlete_profile t athlete_id data cb now athlete_id =
      some { ex with
             full_name := data.full_name
             gender := data.gender
             birth_year := data.birth_year
             age_group := data.age_group
             sport := data.sport
             dominant_side := data.dominant_side
             club := data.club
             city := data.city
             photo_path := data.photo_path
             preferences_json := data.preferences_json
             updated_at := now }
    ∧ (∀ x, upsert_athlete_profile t athlete_id data cb now athlete_id = some x →
          x.created_at = ex.created_at ∧ x.created_by_user_id = ex.created_by_user_id)
    ∧ (∀ k, k ≠ athlete_id → upsert_athlete_profile t athlete_id data cb now k = t k) := by
  unfold upsert_athlete_profile
  rw [h]
  refine ⟨by simp, ?_, ?_⟩
  · intro x hx
    simp only [if_pos rfl] at hx
    rw [← Option.some.inj hx]
    exact ⟨rfl, rfl⟩
  · intro k hk
    simp [hk]

/-- Witness for C9: the frame theorem applied to a concrete one-row table and
a concrete update. -/
theorem C9_upsert_update_frame_witness :
    get_athlete sampleTable "A001" = some sampleFullRow
    ∧ upsert_athlete_profile sampleTable "A001" sampleUpdateData (some 2) "2026-02-02 09:00:00"
        "A001" =
      some { sampleFullRow with
             full_name := sampleUpdateData.full_name
             gender := sampleUpdateData.gender
             birth_year := sampleUpdateData.birth_year
             age_group := sampleUpdateData.age_group
             sport := sampleUpdateData.sport
             dominant_side := sampleUpdateData.dominant_side
             club := sampleUpdateData.club
             city := sampleUpdateData.city
             photo_path := sampleUpdateData.photo_path
             preferences_json := sampleUpdateData.preferences_json
             updated_at := "2026-02-02 09:00:00" } :=
  ⟨rfl,
   (C9_upsert_update_frame sampleTable "A001" sampleUpdateData (some 2) "2026-02-02 09:00:00"
      sampleFullRow rfl).1⟩

/-- C10: the defensive bounds inside `completion_score` are never active.
The Uploads sub-score accumulated before `min(u, 15)` is at most
6 + 5 + 4 = 15, so the `min` never changes the value, and the three
sub-scores are each non-negative, so the lower clamp at 0 is unreachable:
the total always equals `min(Profile + Metrics + Uploads, 100)`. -/
theorem C10_defensive_bounds_inactive (fs : String → Bool) (a : Option ProfileRow)
    (metrics : List MetricEntry) (uploads : List UploadRecord) :
    uploads_score_pre (list_upload_types uploads) ≤ 15
    ∧ uploads_score (list_upload_types uploads) =
        (if (list_upload_types uploads).isEmpty then 0
         else uploads_score_pre (list_upload_types uploads))
    ∧ 0 ≤ (completion_score fs a metrics uploads).2.profile
    ∧ 0 ≤ (completion_score fs a metrics uploads).2.metrics
    ∧ 0 ≤ (completion_score fs a metrics uploads).2.uploads
    ∧ (completion_score fs a metrics uploads).1 =
        min ((completion_score fs a metrics uploads).2.profile
          + (completion_score fs a metrics uploads).2.metrics
          + (completion_score fs a metrics uploads).2.uploads) 100 := by
  have hple := uploads_score_pre_le (list_upload_types uploads)
  have hpn := uploads_score_pre_nonneg (list_upload_types uploads)
  have hmn : 0 ≤ metrics_score (list_metrics_count metrics) := by
    simp only [metrics_score]; split_ifs <;> omega
  have hun : 0 ≤ uploads_score (list_upload_types uploads) := by
    simp only [uploads_score]; split_ifs <;> omega
  have hpf := profile_score_nonneg fs a
  refine ⟨hple, ?_, hpf, hmn, hun, ?_⟩
  · simp only [uploads_score]
    split_ifs with h
    · rfl
    · omega
  · simp only [completion_score, clamp]
    omega
